import Mathlib

/-!
Verification of the feed lifecycle adapter
(`azuredevops/internal/service/feed/resource_feed.go`).

The adapter is a CRUD bridge between a declarative resource state and the
remote feed API.  We embed it shallowly:

* `RD` models the declarative resource data (`*schema.ResourceData`):
  the tracked `id`, the `name` and `project_id` fields, and the optional
  `features` block.  The Go code reads the `features` list and takes its
  first element as a map; the schema defaults both booleans to `false`
  whenever the block is present, so an `Option Features` captures exactly
  the observable configurations.
* `Remote` models the remote feed client (`clients.FeedClient`) as a record
  of response functions, one per API operation used by the adapter.
* Each adapter function returns a `Run`: the resulting resource data, the
  returned error (if any), and the ordered trace of remote calls it issued.
* `fmt.Errorf` wrapping is modelled by `AdapterError.wrapped`, which keeps
  the added message and the remote cause; an error returned unchanged is
  `AdapterError.unwrapped`.
* `isFeedRestorable` dereferences the change record and its `ChangeType`
  pointer without a nil guard; a nil dereference (a Go panic) is modelled
  by the result `none` in `Option Bool`.
-/

/-- The `features` block of the schema: two booleans, both defaulting to
`false` when the block is present (`permanent_delete`, `restore`). -/
structure Features where
  permanent_delete : Bool
  restore : Bool
deriving DecidableEq, Repr

/-- The declarative resource data (`*schema.ResourceData`): tracked state
identifier plus the configured fields. -/
structure RD where
  id : String
  name : String
  project_id : String
  features : Option Features
deriving DecidableEq, Repr

/-- A project reference nested inside a remote feed response
(`getFeed.Project`); only its id is used by the adapter. -/
structure ProjectReference where
  id : String
deriving DecidableEq, Repr

/-- A remote feed response (`*feed.Feed`): the server-assigned id, the
possibly-nil name pointer, and the possibly-nil nested project object. -/
structure Feed where
  id : String
  name : Option String
  project : Option ProjectReference
deriving DecidableEq, Repr

/-- A feed change record (`*feed.FeedChange`) as used by
`isFeedRestorable`: only the possibly-nil `ChangeType` pointer matters. -/
structure FeedChange where
  changeType : Option String
deriving DecidableEq, Repr

/-- The `feed.ChangeTypeValues.Delete` constant. -/
def ChangeTypeValuesDelete : String := "Delete"

/-- The update payload (`feed.FeedUpdate`); the adapter always sends the
zero value, i.e. every optional field nil. -/
structure FeedUpdate where
  badges : Option Bool
  description : Option String
  hideDeletedPackageVersions : Option Bool
  upstreamEnabled : Option Bool
deriving DecidableEq, Repr

/-- The zero-value update payload `&feed.FeedUpdate\x7b\x7d` sent by
`resourceFeedUpdate`. -/
def emptyFeedUpdate : FeedUpdate :=
  { badges := none, description := none,
    hideDeletedPackageVersions := none, upstreamEnabled := none }

/-- A JSON value as carried by a patch operation; the restore patch only
ever carries the boolean `false`. -/
inductive JsonValue where
  | null
  | jbool (b : Bool)
deriving DecidableEq, Repr

/-- The `webapi.OperationValues.Replace` constant. -/
def OperationValuesReplace : String := "replace"

/-- A `webapi.JsonPatchOperation`. -/
structure JsonPatchOperation where
  fromPath : Option String
  path : Option String
  op : String
  value : JsonValue
deriving DecidableEq, Repr

/-- The fixed single-operation patch document built by `restoreFeed`:
replace `/isDeleted` with `false`. -/
def restoreFeedPatch : List JsonPatchOperation :=
  [{ fromPath := none, path := some "/isDeleted",
     op := OperationValuesReplace, value := JsonValue.jbool false }]

/-- An error returned by the remote layer.  `notFound` reflects
`utils.ResponseWasNotFound`. -/
structure RemoteError where
  notFound : Bool
  msg : String
deriving DecidableEq, Repr

/-- An error returned by an adapter operation: either the remote error
wrapped with an added message (`fmt.Errorf` with a context string), or the
remote error returned unchanged. -/
inductive AdapterError where
  | wrapped (ctx : String) (cause : RemoteError)
  | unwrapped (cause : RemoteError)
deriving DecidableEq, Repr

/-- One remote API call with the arguments the adapter passed.  Each
constructor lists every argument the corresponding Go call site sends
(the real `CreateFeedArgs` has no field for the feature flags, so
`createFeed` carries only the name and the project scope). -/
inductive Call where
  | createFeed (name project : String)
  | getFeed (feedId project : String)
  | updateFeed (payload : FeedUpdate) (feedId project : String)
  | deleteFeed (feedId project : String)
  | permanentDeleteFeed (feedId project : String)
  | getFeedChange (feedId project : String)
  | restoreDeletedFeed (feedId project : String) (patchJson : List JsonPatchOperation)
deriving DecidableEq, Repr

/-- True exactly on a `createFeed` call. -/
def Call.isCreateFeed : Call → Bool
  | Call.createFeed _ _ => true
  | _ => false

/-- True exactly on a `getFeedChange` call. -/
def Call.isGetFeedChange : Call → Bool
  | Call.getFeedChange _ _ => true
  | _ => false

/-- True exactly on a `restoreDeletedFeed` call. -/
def Call.isRestoreDeletedFeed : Call → Bool
  | Call.restoreDeletedFeed _ _ _ => true
  | _ => false

/-- True exactly on a soft-delete (`deleteFeed`) call. -/
def Call.isDeleteFeed : Call → Bool
  | Call.deleteFeed _ _ => true
  | _ => false

/-- True exactly on a `permanentDeleteFeed` call. -/
def Call.isPermanentDeleteFeed : Call → Bool
  | Call.permanentDeleteFeed _ _ => true
  | _ => false

/-- The remote feed client (`clients.FeedClient`): one response function
per operation the adapter uses. -/
structure Remote where
  createFeed : String → String → Except RemoteError (Option Feed)
  getFeed : String → String → Except RemoteError (Option Feed)
  updateFeed : FeedUpdate → String → String → Except RemoteError (Option Feed)
  deleteFeed : String → String → Except RemoteError Unit
  permanentDeleteFeed : String → String → Except RemoteError Unit
  getFeedChange : String → String → Except RemoteError (Option FeedChange)
  restoreDeletedFeed : String → String → List JsonPatchOperation → Except RemoteError Unit

/-- The result of one adapter operation: the resulting resource data, the
returned error (`none` on success), and the ordered trace of remote calls
issued. -/
structure Run where
  state : RD
  outcome : Option AdapterError
  trace : List Call
deriving DecidableEq, Repr

/-- `feedFeatures`: the Go helper reads the `features` list; an absent
block yields the empty map (here `none`), a present block yields the map
with both schema-defaulted booleans (here `some`). -/
def feedFeatures (d : RD) : Option Features := d.features

/-- The effective `restore` flag: `false` when the block is absent (the
map lookup then fails), the configured boolean otherwise. -/
def restoreFlag (d : RD) : Bool :=
  match d.features with
  | some f => f.restore
  | none => false

/-- The effective `permanent_delete` flag, analogously. -/
def permanentDeleteFlag (d : RD) : Bool :=
  match d.features with
  | some f => f.permanent_delete
  | none => false

/-- Models the framework setter `d.Set("name", getFeed.Name)` applied to a
possibly-nil string pointer: the plugin SDK map field writer dereferences
the pointer and stores the type's zero value (the empty string) when the
pointer is nil, so the field is written in either case. -/
def setNameFromResponse (n : Option String) : String :=
  match n with
  | some s => s
  | none => ""

/-- `resourceFeedRead`: query `GetFeed` with the configured name and
project; swallow a not-found error into an empty id, wrap any other error
with the read message, and otherwise copy the response into the state. -/
def resourceFeedRead (d : RD) (r : Remote) : Run :=
  let call := Call.getFeed d.name d.project_id
  match r.getFeed d.name d.project_id with
  | Except.error e =>
    if e.notFound then
      { state := { d with id := "" }, outcome := none, trace := [call] }
    else
      { state := d,
        outcome := some (AdapterError.wrapped " reading feed during read" e),
        trace := [call] }
  | Except.ok response =>
    match response with
    | none => { state := d, outcome := none, trace := [call] }
    | some f =>
      let d1 : RD := { d with id := f.id }
      let d2 : RD := { d1 with name := setNameFromResponse f.name }
      let d3 : RD :=
        match f.project with
        | some p => { d2 with project_id := p.id }
        | none => d2
      { state := d3, outcome := none, trace := [call] }

/-- `resourceFeedUpdate`: send `UpdateFeed` with the zero-value payload and
the configured identifiers; return the error unchanged on failure and
delegate to `resourceFeedRead` on success. -/
def resourceFeedUpdate (d : RD) (r : Remote) : Run :=
  let call := Call.updateFeed emptyFeedUpdate d.name d.project_id
  match r.updateFeed emptyFeedUpdate d.name d.project_id with
  | Except.error e =>
    { state := d, outcome := some (AdapterError.unwrapped e), trace := [call] }
  | Except.ok _ =>
    let rest := resourceFeedRead d r
    { rest with trace := call :: rest.trace }

/-- `resourceFeedDelete`: soft-delete first; on its failure return the
error unchanged without touching the id.  If the `permanent_delete` flag
is set, additionally permanent-delete, returning its error unchanged on
failure.  Only after every issued call succeeded is the id cleared. -/
def resourceFeedDelete (d : RD) (r : Remote) : Run :=
  let call := Call.deleteFeed d.name d.project_id
  match r.deleteFeed d.name d.project_id with
  | Except.error e =>
    { state := d, outcome := some (AdapterError.unwrapped e), trace := [call] }
  | Except.ok _ =>
    match feedFeatures d with
    | some f =>
      if f.permanent_delete then
        let pcall := Call.permanentDeleteFeed d.name d.project_id
        match r.permanentDeleteFeed d.name d.project_id with
        | Except.error e =>
          { state := d, outcome := some (AdapterError.unwrapped e),
            trace := [call, pcall] }
        | Except.ok _ =>
          { state := { d with id := "" }, outcome := none, trace := [call, pcall] }
      else
        { state := { d with id := "" }, outcome := none, trace := [call] }
    | none =>
      { state := { d with id := "" }, outcome := none, trace := [call] }

/-- `isFeedRestorable`: query `GetFeedChange`; on any error return `false`
(the conjunction short-circuits before the dereference).  On success the Go
code evaluates `*((*change).ChangeType) == feed.ChangeTypeValues.Delete`
with no nil guard on either pointer; a nil change record or a nil
`ChangeType` is a nil-pointer dereference, modelled as the result `none`.
The second component is the trace of remote calls. -/
def isFeedRestorable (d : RD) (r : Remote) : Option Bool × List Call :=
  let call := Call.getFeedChange d.name d.project_id
  match r.getFeedChange d.name d.project_id with
  | Except.error _ => (some false, [call])
  | Except.ok change =>
    match change with
    | none => (none, [call])
    | some c =>
      match c.changeType with
      | none => (none, [call])
      | some ct => (some (ct == ChangeTypeValuesDelete), [call])

/-- `restoreFeed`: issue `RestoreDeletedFeed` with the configured
identifiers and the fixed single-operation patch; return the remote error
unchanged (the helper itself adds nothing). -/
def restoreFeed (d : RD) (r : Remote) : Option RemoteError × List Call :=
  let call := Call.restoreDeletedFeed d.name d.project_id restoreFeedPatch
  match r.restoreDeletedFeed d.name d.project_id restoreFeedPatch with
  | Except.error e => (some e, [call])
  | Except.ok _ => (none, [call])

/-- The fall-through create path of `resourceFeedCreate`: call `CreateFeed`
with only the name and the project scope; wrap a failure with the creating
message; on success delegate to `resourceFeedRead`.  `pre` is the trace
already issued before this path (the restorability probe, when taken). -/
def createRemotePath (d : RD) (r : Remote) (pre : List Call) : Run :=
  let call := Call.createFeed d.name d.project_id
  match r.createFeed d.name d.project_id with
  | Except.error e =>
    { state := d,
      outcome := some (AdapterError.wrapped ("creating new feed. Name: " ++ d.name) e),
      trace := pre ++ [call] }
  | Except.ok _ =>
    let rest := resourceFeedRead d r
    { rest with trace := pre ++ call :: rest.trace }

/-- `resourceFeedCreate`: when the `features` block is present and its
`restore` flag is true, probe `isFeedRestorable` (short-circuit: the probe
is not issued when the flag is false); if restorable, restore — wrapping a
restore failure with the restoring message — and delegate to read;
otherwise fall through to the remote create.  The result is `none` when
the restorability probe hits a nil-pointer dereference. -/
def resourceFeedCreate (d : RD) (r : Remote) : Option Run :=
  match feedFeatures d with
  | some f =>
    if f.restore then
      match isFeedRestorable d r with
      | (none, _) => none
      | (some true, t1) =>
        match restoreFeed d r with
        | (some e, t2) =>
          some { state := d,
                 outcome := some (AdapterError.wrapped ("restoring feed. Name: " ++ d.name) e),
                 trace := t1 ++ t2 }
        | (none, t2) =>
          let rest := resourceFeedRead d r
          some { rest with trace := t1 ++ t2 ++ rest.trace }
      | (some false, t1) => some (createRemotePath d r t1)
    else some (createRemotePath d r [])
  | none => some (createRemotePath d r [])

/-! ## Helper lemmas about traces -/

/-- Every read issues exactly the one `getFeed` call. -/
theorem resourceFeedRead_trace (d : RD) (r : Remote) :
    (resourceFeedRead d r).trace = [Call.getFeed d.name d.project_id] := by
  unfold resourceFeedRead
  cases h : r.getFeed d.name d.project_id with
  | error e => by_cases hnf : e.notFound <;> simp [hnf]
  | ok response => cases response <;> simp

/-- The restorability probe issues exactly the one `getFeedChange` call. -/
theorem isFeedRestorable_trace (d : RD) (r : Remote) :
    (isFeedRestorable d r).snd = [Call.getFeedChange d.name d.project_id] := by
  unfold isFeedRestorable
  cases h : r.getFeedChange d.name d.project_id with
  | error e => simp
  | ok change =>
    cases change with
    | none => simp
    | some c => cases hc : c.changeType <;> simp [hc]

/-- The restore helper issues exactly the one `restoreDeletedFeed` call,
with the fixed patch document. -/
theorem restoreFeed_trace (d : RD) (r : Remote) :
    (restoreFeed d r).snd
      = [Call.restoreDeletedFeed d.name d.project_id restoreFeedPatch] := by
  unfold restoreFeed
  cases h : r.restoreDeletedFeed d.name d.project_id restoreFeedPatch <;> simp

/-! ## Concrete fixtures for witnesses and counterexamples -/

/-- A fully populated remote feed response. -/
def feedRespA : Feed :=
  { id := "feed-id-1", name := some "pkgs", project := some { id := "proj-1" } }

/-- A partially populated response: no name pointer, no project object. -/
def feedRespBare : Feed :=
  { id := "feed-id-2", name := none, project := none }

/-- A not-found remote error. -/
def errNotFound : RemoteError := { notFound := true, msg := "404" }

/-- A generic remote error that is not a not-found. -/
def errBoom : RemoteError := { notFound := false, msg := "boom" }

/-- Resource data with no `features` block. -/
def rdPlain : RD :=
  { id := "", name := "pkgs", project_id := "proj-1", features := none }

/-- Resource data with `restore = true`. -/
def rdRestore : RD :=
  { id := "", name := "pkgs", project_id := "proj-1",
    features := some { permanent_delete := false, restore := true } }

/-- Resource data with `restore = false` explicitly configured. -/
def rdNoRestore : RD :=
  { id := "", name := "pkgs", project_id := "proj-1",
    features := some { permanent_delete := false, restore := false } }

/-- Resource data with `permanent_delete = true` and a tracked id. -/
def rdPerm : RD :=
  { id := "old-id", name := "pkgs", project_id := "proj-1",
    features := some { permanent_delete := true, restore := false } }

/-- A remote on which every operation succeeds and the deletion history
reports a soft delete. -/
def remoteHappy : Remote :=
  { createFeed := fun _ _ => Except.ok (some feedRespA)
    getFeed := fun _ _ => Except.ok (some feedRespA)
    updateFeed := fun _ _ _ => Except.ok (some feedRespA)
    deleteFeed := fun _ _ => Except.ok ()
    permanentDeleteFeed := fun _ _ => Except.ok ()
    getFeedChange := fun _ _ => Except.ok (some { changeType := some "Delete" })
    restoreDeletedFeed := fun _ _ _ => Except.ok () }

/-- Like `remoteHappy`, but the restore call fails. -/
def remoteRestoreFails : Remote :=
  { remoteHappy with restoreDeletedFeed := fun _ _ _ => Except.error errBoom }

/-- Like `remoteHappy`, but the read query reports not-found. -/
def remoteNotFound : Remote :=
  { remoteHappy with getFeed := fun _ _ => Except.error errNotFound }

/-- Like `remoteHappy`, but the read query fails with a non-404 error. -/
def remoteReadFails : Remote :=
  { remoteHappy with getFeed := fun _ _ => Except.error errBoom }

/-- Like `remoteHappy`, but the read query returns the bare response. -/
def remoteBareFeed : Remote :=
  { remoteHappy with getFeed := fun _ _ => Except.ok (some feedRespBare) }

/-- Like `remoteHappy`, but the soft delete fails. -/
def remoteDeleteFails : Remote :=
  { remoteHappy with deleteFeed := fun _ _ => Except.error errBoom }

/-- Like `remoteHappy`, but the deletion-history query fails. -/
def remoteChangeFails : Remote :=
  { remoteHappy with getFeedChange := fun _ _ => Except.error errBoom }

/-- Like `remoteHappy`, but the deletion-history query succeeds with a nil
change record. -/
def remoteNilChange : Remote :=
  { remoteHappy with getFeedChange := fun _ _ => Except.ok none }

/-- Like `remoteHappy`, but the deletion-history query succeeds with a
change record whose `ChangeType` pointer is nil. -/
def remoteNilChangeType : Remote :=
  { remoteHappy with getFeedChange := fun _ _ => Except.ok (some { changeType := none }) }

/-- Like `remoteHappy`, but the update call fails. -/
def remoteUpdateFails : Remote :=
  { remoteHappy with updateFeed := fun _ _ _ => Except.error errBoom }

/-! ## C4: read error handling -/

/-- C4: when the read query fails with a not-found error, read clears the
state identifier and returns no error; when it fails for any other reason,
read returns an error wrapping the remote cause (the read message plus the
cause), leaving the state untouched. -/
theorem read_error_handling (d : RD) (r : Remote) (e : RemoteError)
    (h : r.getFeed d.name d.project_id = Except.error e) :
    (e.notFound = true →
      (resourceFeedRead d r).state = { d with id := "" } ∧
      (resourceFeedRead d r).state.id = "" ∧
      (resourceFeedRead d r).outcome = none) ∧
    (e.notFound = false →
      (resourceFeedRead d r).outcome
        = some (AdapterError.wrapped " reading feed during read" e) ∧
      (resourceFeedRead d r).state = d) := by
  unfold resourceFeedRead
  constructor <;> intro hnf <;> simp [h, hnf]

/-- C4 witness: at a concrete not-found remote, read returns a cleared id
and no error. -/
theorem read_error_handling_witness :
    remoteNotFound.getFeed rdPlain.name rdPlain.project_id
      = Except.error errNotFound ∧
    errNotFound.notFound = true ∧
    (resourceFeedRead rdPlain remoteNotFound).state.id = "" ∧
    (resourceFeedRead rdPlain remoteNotFound).outcome = none :=
  ⟨rfl, rfl,
    ((read_error_handling rdPlain remoteNotFound errNotFound rfl).1 rfl).2.1,
    ((read_error_handling rdPlain remoteNotFound errNotFound rfl).1 rfl).2.2⟩

/-! ## C5: read success population -/

/-- C5 counterexample: the claim says the name is populated only if the
response's name is present.  At this concrete input the response's name
pointer is nil, yet read still writes the name field (the unguarded
`d.Set("name", getFeed.Name)` stores the zero value), changing it from
"pkgs" to the empty string. -/
theorem read_name_unconditional_counterexample :
    remoteBareFeed.getFeed rdPlain.name rdPlain.project_id
      = Except.ok (some feedRespBare) ∧
    feedRespBare.name = none ∧
    rdPlain.name = "pkgs" ∧
    (resourceFeedRead rdPlain remoteBareFeed).state.name = "" ∧
    (resourceFeedRead rdPlain remoteBareFeed).state.name ≠ rdPlain.name := by
  refine ⟨rfl, rfl, rfl, rfl, ?_⟩
  decide

/-- C5 amended: on a successful read the id is populated from the
server-assigned id, the name field is written unconditionally from the
response (becoming the empty string when the response's name is nil), and
the scope is populated from the nested project object only when that
object is non-null, being left untouched when it is null. -/
theorem read_success_population (d : RD) (r : Remote) (f : Feed)
    (h : r.getFeed d.name d.project_id = Except.ok (some f)) :
    (resourceFeedRead d r).state.id = f.id ∧
    (resourceFeedRead d r).state.name = setNameFromResponse f.name ∧
    (resourceFeedRead d r).outcome = none ∧
    (f.project = none → (resourceFeedRead d r).state.project_id = d.project_id) ∧
    (∀ p, f.project = some p → (resourceFeedRead d r).state.project_id = p.id) := by
  unfold resourceFeedRead
  cases hp : f.project <;> simp [h, hp]

/-- C5 amended witness: at a concrete fully populated response, read
copies the id, the name, and the nested project id. -/
theorem read_success_population_witness :
    remoteHappy.getFeed rdPlain.name rdPlain.project_id
      = Except.ok (some feedRespA) ∧
    (resourceFeedRead rdPlain remoteHappy).state.id = "feed-id-1" ∧
    (resourceFeedRead rdPlain remoteHappy).state.name = "pkgs" ∧
    (resourceFeedRead rdPlain remoteHappy).state.project_id = "proj-1" :=
  ⟨rfl,
    (read_success_population rdPlain remoteHappy feedRespA rfl).1,
    (read_success_population rdPlain remoteHappy feedRespA rfl).2.1,
    (read_success_population rdPlain remoteHappy feedRespA rfl).2.2.2.2
      { id := "proj-1" } rfl⟩

/-! ## C9: update -/

/-- C9: update sends the zero-value payload with the configured
identifiers; a failure is returned unchanged (unwrapped) with the state
untouched; a success delegates to read for the resulting state and
outcome. -/
theorem update_empty_payload_delegates (d : RD) (r : Remote) :
    (resourceFeedUpdate d r).trace.head?
      = some (Call.updateFeed emptyFeedUpdate d.name d.project_id) ∧
    emptyFeedUpdate
      = { badges := none, description := none,
          hideDeletedPackageVersions := none, upstreamEnabled := none } ∧
    (∀ e, r.updateFeed emptyFeedUpdate d.name d.project_id = Except.error e →
      (resourceFeedUpdate d r).outcome = some (AdapterError.unwrapped e) ∧
      (resourceFeedUpdate d r).state = d) ∧
    (∀ x, r.updateFeed emptyFeedUpdate d.name d.project_id = Except.ok x →
      (resourceFeedUpdate d r).state = (resourceFeedRead d r).state ∧
      (resourceFeedUpdate d r).outcome = (resourceFeedRead d r).outcome) := by
  refine ⟨?_, rfl, ?_, ?_⟩
  · unfold resourceFeedUpdate
    cases h : r.updateFeed emptyFeedUpdate d.name d.project_id <;> simp [h]
  · intro e he
    unfold resourceFeedUpdate
    simp [he]
  · intro x hx
    unfold resourceFeedUpdate
    simp [hx]

/-- C9 witness: at a concrete remote whose update succeeds, update
delegates to read; at one whose update fails, the error comes back
unwrapped. -/
theorem update_empty_payload_delegates_witness :
    remoteHappy.updateFeed emptyFeedUpdate rdPlain.name rdPlain.project_id
      = Except.ok (some feedRespA) ∧
    (resourceFeedUpdate rdPlain remoteHappy).state
      = (resourceFeedRead rdPlain remoteHappy).state ∧
    remoteUpdateFails.updateFeed emptyFeedUpdate rdPlain.name rdPlain.project_id
      = Except.error errBoom ∧
    (resourceFeedUpdate rdPlain remoteUpdateFails).outcome
      = some (AdapterError.unwrapped errBoom) :=
  ⟨rfl,
    ((update_empty_payload_delegates rdPlain remoteHappy).2.2.2
      (some feedRespA) rfl).1,
    rfl,
    ((update_empty_payload_delegates rdPlain remoteUpdateFails).2.2.1
      errBoom rfl).1⟩

/-! ## C3: delete call ordering -/

/-- C3: with the `permanent_delete` flag off (or the block absent) delete
issues exactly the one soft-delete call and never a permanent delete; with
the flag on it issues soft delete then permanent delete in that order, and
when the soft delete fails the permanent delete is never attempted. -/
theorem delete_soft_then_permanent (d : RD) (r : Remote) :
    (permanentDeleteFlag d = false →
      (resourceFeedDelete d r).trace = [Call.deleteFeed d.name d.project_id]) ∧
    (permanentDeleteFlag d = true →
      (∀ e, r.deleteFeed d.name d.project_id = Except.error e →
        (resourceFeedDelete d r).trace = [Call.deleteFeed d.name d.project_id]) ∧
      (∀ u, r.deleteFeed d.name d.project_id = Except.ok u →
        (resourceFeedDelete d r).trace
          = [Call.deleteFeed d.name d.project_id,
             Call.permanentDeleteFeed d.name d.project_id])) := by
  constructor
  · intro hp
    unfold resourceFeedDelete feedFeatures
    cases hdel : r.deleteFeed d.name d.project_id with
    | error e => simp
    | ok u =>
      cases hf : d.features with
      | none => simp [hf]
      | some f =>
        have hpf : f.permanent_delete = false := by
          simpa [permanentDeleteFlag, hf] using hp
        simp [hf, hpf]
  · intro hp
    cases hf : d.features with
    | none => simp [permanentDeleteFlag, hf] at hp
    | some f =>
      have hpf : f.permanent_delete = true := by
        simpa [permanentDeleteFlag, hf] using hp
      constructor
      · intro e he
        unfold resourceFeedDelete
        simp [he]
      · intro u hu
        unfold resourceFeedDelete feedFeatures
        cases hperm : r.permanentDeleteFeed d.name d.project_id <;>
          simp [hu, hf, hpf, hperm]

/-- C3 witness: at a concrete spec with the flag on and a remote whose
calls succeed, the trace is soft delete followed by permanent delete; at
one whose soft delete fails, the trace is the soft delete alone. -/
theorem delete_soft_then_permanent_witness :
    permanentDeleteFlag rdPerm = true ∧
    remoteHappy.deleteFeed rdPerm.name rdPerm.project_id = Except.ok () ∧
    (resourceFeedDelete rdPerm remoteHappy).trace
      = [Call.deleteFeed "pkgs" "proj-1", Call.permanentDeleteFeed "pkgs" "proj-1"] ∧
    remoteDeleteFails.deleteFeed rdPerm.name rdPerm.project_id
      = Except.error errBoom ∧
    (resourceFeedDelete rdPerm remoteDeleteFails).trace
      = [Call.deleteFeed "pkgs" "proj-1"] :=
  ⟨rfl, rfl,
    ((delete_soft_then_permanent rdPerm remoteHappy).2 rfl).2 () rfl,
    rfl,
    ((delete_soft_then_permanent rdPerm remoteDeleteFails).2 rfl).1 errBoom rfl⟩

/-! ## C7: delete clears the id exactly on overall success -/

/-- C7: delete succeeds (no returned error) exactly when every remote
delete call it issues succeeds — the soft delete, plus the permanent
delete when that flag is set; on success the state identifier is cleared,
and on any failure the error is returned and the state (in particular its
identifier) is left unchanged. -/
theorem delete_clears_id_iff_success (d : RD) (r : Remote) :
    ((resourceFeedDelete d r).outcome = none ↔
      r.deleteFeed d.name d.project_id = Except.ok () ∧
      (permanentDeleteFlag d = true →
        r.permanentDeleteFeed d.name d.project_id = Except.ok ())) ∧
    ((resourceFeedDelete d r).outcome = none →
      (resourceFeedDelete d r).state = { d with id := "" }) ∧
    (∀ e, (resourceFeedDelete d r).outcome = some e →
      (resourceFeedDelete d r).state = d) := by
  unfold resourceFeedDelete feedFeatures
  cases hdel : r.deleteFeed d.name d.project_id with
  | error e => simp [hdel]
  | ok u =>
    cases u
    cases hf : d.features with
    | none => simp [hdel, hf, permanentDeleteFlag]
    | some f =>
      cases hpf : f.permanent_delete with
      | false => simp [hdel, hf, hpf, permanentDeleteFlag]
      | true =>
        cases hperm : r.permanentDeleteFeed d.name d.project_id with
        | error e2 => simp [hdel, hf, hpf, hperm, permanentDeleteFlag]
        | ok u2 => cases u2; simp [hdel, hf, hpf, hperm, permanentDeleteFlag]

/-- C7 witness: at a concrete all-success remote with the permanent flag
set, delete returns no error and clears the id; at one whose soft delete
fails, the error is returned and the tracked id is untouched. -/
theorem delete_clears_id_iff_success_witness :
    (resourceFeedDelete rdPerm remoteHappy).outcome = none ∧
    (resourceFeedDelete rdPerm remoteHappy).state = { rdPerm with id := "" } ∧
    (resourceFeedDelete rdPerm remoteDeleteFails).outcome
      = some (AdapterError.unwrapped errBoom) ∧
    (resourceFeedDelete rdPerm remoteDeleteFails).state = rdPerm :=
  ⟨by decide,
    (delete_clears_id_iff_success rdPerm remoteHappy).2.1 (by decide),
    by decide,
    (delete_clears_id_iff_success rdPerm remoteDeleteFails).2.2
      (AdapterError.unwrapped errBoom) (by decide)⟩

/-! ## C8: restorability check fails closed -/

/-- C8: the restorability probe surfaces no error: on any query failure it
returns the boolean `false` (fails closed), and on a successful query with
a recorded change type it returns a boolean that is `true` exactly when
that change type is the `Delete` constant. -/
theorem isFeedRestorable_fails_closed (d : RD) (r : Remote) :
    (∀ e, r.getFeedChange d.name d.project_id = Except.error e →
      (isFeedRestorable d r).fst = some false) ∧
    (∀ c ct, r.getFeedChange d.name d.project_id = Except.ok (some c) →
      c.changeType = some ct →
      (isFeedRestorable d r).fst = some (ct == ChangeTypeValuesDelete)) ∧
    (∀ c ct, r.getFeedChange d.name d.project_id = Except.ok (some c) →
      c.changeType = some ct →
      ((isFeedRestorable d r).fst = some true ↔ ct = "Delete")) := by
  refine ⟨?_, ?_, ?_⟩
  · intro e he
    unfold isFeedRestorable
    simp [he]
  · intro c ct hc hct
    unfold isFeedRestorable
    simp [hc, hct]
  · intro c ct hc hct
    unfold isFeedRestorable
    simp [hc, hct, ChangeTypeValuesDelete]

/-- C8 witness: a failing deletion-history query yields `false`; a
successful one recording `Delete` yields `true`. -/
theorem isFeedRestorable_fails_closed_witness :
    remoteChangeFails.getFeedChange rdRestore.name rdRestore.project_id
      = Except.error errBoom ∧
    (isFeedRestorable rdRestore remoteChangeFails).fst = some false ∧
    (isFeedRestorable rdRestore remoteHappy).fst = some true :=
  ⟨rfl,
    (isFeedRestorable_fails_closed rdRestore remoteChangeFails).1 errBoom rfl,
    ((isFeedRestorable_fails_closed rdRestore remoteHappy).2.2
      { changeType := some "Delete" } "Delete" rfl rfl).mpr rfl⟩

/-! ## C10: restorability check is total only without nil responses -/

/-- C10: when the deletion-history query succeeds but returns a nil change
record, or a record with a nil change type, the probe dereferences a nil
pointer (result `none`) rather than failing closed to `false`; under the
precondition that every successful response carries a non-nil record with
a non-nil change type, the probe always returns a boolean. -/
theorem isFeedRestorable_nil_deref (d : RD) (r : Remote) :
    (r.getFeedChange d.name d.project_id = Except.ok none →
      (isFeedRestorable d r).fst = none ∧
      (isFeedRestorable d r).fst ≠ some false) ∧
    (∀ c, r.getFeedChange d.name d.project_id = Except.ok (some c) →
      c.changeType = none →
      (isFeedRestorable d r).fst = none ∧
      (isFeedRestorable d r).fst ≠ some false) ∧
    ((∀ v, r.getFeedChange d.name d.project_id = Except.ok v →
        ∃ c, v = some c ∧ ∃ ct, c.changeType = some ct) →
      ∃ b, (isFeedRestorable d r).fst = some b) := by
  refine ⟨?_, ?_, ?_⟩
  · intro h
    unfold isFeedRestorable
    simp [h]
  · intro c hc hct
    unfold isFeedRestorable
    simp [hc, hct]
  · intro hpre
    unfold isFeedRestorable
    cases h : r.getFeedChange d.name d.project_id with
    | error e => exact ⟨false, by simp⟩
    | ok v =>
      obtain ⟨c, rfl, ct, hct⟩ := hpre v h
      exact ⟨ct == ChangeTypeValuesDelete, by simp [hct]⟩

/-- C10 witness: a successful query returning a nil change record makes
the probe dereference nil (result `none`), while the well-formed
`remoteHappy` satisfies the precondition and yields a boolean. -/
theorem isFeedRestorable_nil_deref_witness :
    remoteNilChange.getFeedChange rdRestore.name rdRestore.project_id
      = Except.ok none ∧
    (isFeedRestorable rdRestore remoteNilChange).fst = none ∧
    (∃ b, (isFeedRestorable rdRestore remoteHappy).fst = some b) :=
  ⟨rfl,
    ((isFeedRestorable_nil_deref rdRestore remoteNilChange).1 rfl).1,
    (isFeedRestorable_nil_deref rdRestore remoteHappy).2.2
      (fun v hv => by
        refine ⟨{ changeType := some "Delete" }, ?_, "Delete", rfl⟩
        have : (Except.ok (some ({ changeType := some "Delete" } : FeedChange))
            : Except RemoteError (Option FeedChange)) = Except.ok v := hv ▸ rfl
        simpa using this.symm)⟩

/-! ## C1: create takes the restore path when restorable -/

/-- C1: when the `restore` flag is set and the restorability probe
answers true, create never issues the remote create call; it issues
exactly one restore request, addressed by the configured name and project
scope and carrying the fixed single-operation JSON patch replacing
`/isDeleted` with `false`; and when the restore succeeds, create delegates
to read for its resulting state and outcome. -/
theorem create_restore_path (d : RD) (r : Remote)
    (hr : restoreFlag d = true)
    (hres : (isFeedRestorable d r).fst = some true) :
    ∃ run, resourceFeedCreate d r = some run ∧
      run.trace.countP Call.isCreateFeed = 0 ∧
      run.trace.countP Call.isRestoreDeletedFeed = 1 ∧
      Call.restoreDeletedFeed d.name d.project_id restoreFeedPatch ∈ run.trace ∧
      restoreFeedPatch
        = [{ fromPath := none, path := some "/isDeleted",
             op := "replace", value := JsonValue.jbool false }] ∧
      ((restoreFeed d r).fst = none →
        run.state = (resourceFeedRead d r).state ∧
        run.outcome = (resourceFeedRead d r).outcome) := by
  cases hf : d.features with
  | none => simp [restoreFlag, hf] at hr
  | some f =>
    have hrf : f.restore = true := by
      simpa [restoreFlag, hf] using hr
    have ht1 : (isFeedRestorable d r).snd
        = [Call.getFeedChange d.name d.project_id] := isFeedRestorable_trace d r
    have ht2 : (restoreFeed d r).snd
        = [Call.restoreDeletedFeed d.name d.project_id restoreFeedPatch] :=
      restoreFeed_trace d r
    have htr : (resourceFeedRead d r).trace
        = [Call.getFeed d.name d.project_id] := resourceFeedRead_trace d r
    rcases hIR : isFeedRestorable d r with ⟨b, t1⟩
    rw [hIR] at hres
    simp only at hres
    subst hres
    have ht1x : t1 = [Call.getFeedChange d.name d.project_id] := by
      rw [hIR] at ht1; simpa using ht1
    rcases hRF : restoreFeed d r with ⟨eo, t2⟩
    have ht2x : t2 = [Call.restoreDeletedFeed d.name d.project_id restoreFeedPatch] := by
      rw [hRF] at ht2; simpa using ht2
    cases eo with
    | some e =>
      have hcr : resourceFeedCreate d r
          = some { state := d,
                   outcome := some (AdapterError.wrapped
                     ("restoring feed. Name: " ++ d.name) e),
                   trace := t1 ++ t2 } := by
        unfold resourceFeedCreate feedFeatures
        simp [hf, hrf, hIR, hRF]
      subst ht1x
      subst ht2x
      refine ⟨_, hcr, ?_, ?_, ?_, ?_, ?_⟩
      · simp [List.countP_append, List.countP_cons,
          Call.isCreateFeed, Call.isRestoreDeletedFeed]
      · simp [List.countP_append, List.countP_cons,
          Call.isCreateFeed, Call.isRestoreDeletedFeed]
      · simp
      · simp [restoreFeedPatch, OperationValuesReplace]
      · intro hok
        simp [hRF] at hok
    | none =>
      have hcr : resourceFeedCreate d r
          = some { state := (resourceFeedRead d r).state,
                   outcome := (resourceFeedRead d r).outcome,
                   trace := t1 ++ t2 ++ (resourceFeedRead d r).trace } := by
        unfold resourceFeedCreate feedFeatures
        simp [hf, hrf, hIR, hRF]
      subst ht1x
      subst ht2x
      refine ⟨_, hcr, ?_, ?_, ?_, ?_, ?_⟩
      · simp [htr, List.countP_append, List.countP_cons,
          Call.isCreateFeed, Call.isRestoreDeletedFeed]
      · simp [htr, List.countP_append, List.countP_cons,
          Call.isCreateFeed, Call.isRestoreDeletedFeed]
      · simp
      · simp [restoreFeedPatch, OperationValuesReplace]
      · intro _
        exact ⟨rfl, rfl⟩

/-- C1 witness: at a concrete spec with `restore = true` and a remote
whose history records a soft delete and whose calls succeed, create
issues no create call and exactly one restore request. -/
theorem create_restore_path_witness :
    restoreFlag rdRestore = true ∧
    (isFeedRestorable rdRestore remoteHappy).fst = some true ∧
    (∃ run, resourceFeedCreate rdRestore remoteHappy = some run ∧
      run.trace.countP Call.isCreateFeed = 0 ∧
      run.trace.countP Call.isRestoreDeletedFeed = 1 ∧
      Call.restoreDeletedFeed rdRestore.name rdRestore.project_id restoreFeedPatch
        ∈ run.trace ∧
      restoreFeedPatch
        = [{ fromPath := none, path := some "/isDeleted",
             op := "replace", value := JsonValue.jbool false }] ∧
      ((restoreFeed rdRestore remoteHappy).fst = none →
        run.state = (resourceFeedRead rdRestore remoteHappy).state ∧
        run.outcome = (resourceFeedRead rdRestore remoteHappy).outcome)) :=
  ⟨rfl, by decide,
    create_restore_path rdRestore remoteHappy rfl (by decide)⟩

/-! ## C2: create takes the remote create path otherwise -/

/-- C2: when the `restore` flag is false or the block is absent, create
never issues the restorability probe nor a restore request; it issues
exactly one remote create call, as the first call, carrying only the
configured name and project scope (the `createFeed` constructor has no
slot for a feature flag); and on success it delegates to read. -/
theorem create_remote_path_no_restore (d : RD) (r : Remote)
    (hr : restoreFlag d = false) :
    ∃ run, resourceFeedCreate d r = some run ∧
      run.trace.countP Call.isGetFeedChange = 0 ∧
      run.trace.countP Call.isRestoreDeletedFeed = 0 ∧
      run.trace.countP Call.isCreateFeed = 1 ∧
      run.trace.head? = some (Call.createFeed d.name d.project_id) ∧
      (∀ x, r.createFeed d.name d.project_id = Except.ok x →
        run.state = (resourceFeedRead d r).state ∧
        run.outcome = (resourceFeedRead d r).outcome) := by
  have hcp : resourceFeedCreate d r = some (createRemotePath d r []) := by
    unfold resourceFeedCreate feedFeatures
    cases hf : d.features with
    | none => simp
    | some f =>
      have hrf : f.restore = false := by
        simpa [restoreFlag, hf] using hr
      simp [hrf]
  have htr : (resourceFeedRead d r).trace
      = [Call.getFeed d.name d.project_id] := resourceFeedRead_trace d r
  refine ⟨createRemotePath d r [], hcp, ?_⟩
  unfold createRemotePath
  cases hc : r.createFeed d.name d.project_id with
  | error e =>
    refine ⟨?_, ?_, ?_, ?_, ?_⟩ <;>
      simp [List.countP_cons, Call.isCreateFeed, Call.isGetFeedChange,
        Call.isRestoreDeletedFeed, hc]
  | ok x0 =>
    refine ⟨?_, ?_, ?_, ?_, ?_⟩
    · simp [htr, List.countP_cons, Call.isGetFeedChange]
    · simp [htr, List.countP_cons, Call.isRestoreDeletedFeed]
    · simp [htr, List.countP_cons, Call.isCreateFeed]
    · simp
    · intro x hx
      exact ⟨rfl, rfl⟩

/-- C2 witness: at a concrete spec whose `features` block is absent and a
remote whose create succeeds, create issues the create call first, no
probe and no restore, and delegates to read. -/
theorem create_remote_path_no_restore_witness :
    restoreFlag rdPlain = false ∧
    (∃ run, resourceFeedCreate rdPlain remoteHappy = some run ∧
      run.trace.countP Call.isGetFeedChange = 0 ∧
      run.trace.countP Call.isRestoreDeletedFeed = 0 ∧
      run.trace.countP Call.isCreateFeed = 1 ∧
      run.trace.head? = some (Call.createFeed rdPlain.name rdPlain.project_id) ∧
      (∀ x, remoteHappy.createFeed rdPlain.name rdPlain.project_id = Except.ok x →
        run.state = (resourceFeedRead rdPlain remoteHappy).state ∧
        run.outcome = (resourceFeedRead rdPlain remoteHappy).outcome)) :=
  ⟨rfl, create_remote_path_no_restore rdPlain remoteHappy rfl⟩

/-! ## C6: restore failures are wrapped by create -/

/-- C6 counterexample: at a concrete spec taking the restore branch whose
restore call fails, create returns the remote error wrapped with the
restoring message — not the remote error verbatim. -/
theorem create_restore_error_wrapped_counterexample :
    resourceFeedCreate rdRestore remoteRestoreFails
      = some { state := rdRestore,
               outcome := some (AdapterError.wrapped "restoring feed. Name: pkgs" errBoom),
               trace := [Call.getFeedChange "pkgs" "proj-1",
                         Call.restoreDeletedFeed "pkgs" "proj-1" restoreFeedPatch] } ∧
    AdapterError.wrapped "restoring feed. Name: pkgs" errBoom
      ≠ AdapterError.unwrapped errBoom := by
  constructor
  · decide
  · decide

/-- C6 amended: the `restoreFeed` helper itself returns the remote error
unchanged, but `resourceFeedCreate` wraps that error with the restoring
message (including the feed name) before returning it to its caller. -/
theorem create_wraps_restore_error (d : RD) (r : Remote) (e : RemoteError)
    (hr : restoreFlag d = true)
    (hres : (isFeedRestorable d r).fst = some true)
    (hfail : r.restoreDeletedFeed d.name d.project_id restoreFeedPatch
      = Except.error e) :
    (restoreFeed d r).fst = some e ∧
    ∃ run, resourceFeedCreate d r = some run ∧
      run.outcome
        = some (AdapterError.wrapped ("restoring feed. Name: " ++ d.name) e) := by
  have hRF : restoreFeed d r
      = (some e, [Call.restoreDeletedFeed d.name d.project_id restoreFeedPatch]) := by
    unfold restoreFeed
    simp [hfail]
  cases hf : d.features with
  | none => simp [restoreFlag, hf] at hr
  | some f =>
    have hrf : f.restore = true := by
      simpa [restoreFlag, hf] using hr
    rcases hIR : isFeedRestorable d r with ⟨b, t1⟩
    rw [hIR] at hres
    simp only at hres
    subst hres
    refine ⟨by simp [hRF], ?_⟩
    refine ⟨{ state := d,
              outcome := some (AdapterError.wrapped
                ("restoring feed. Name: " ++ d.name) e),
              trace := t1
                ++ [Call.restoreDeletedFeed d.name d.project_id restoreFeedPatch] },
            ?_, rfl⟩
    unfold resourceFeedCreate feedFeatures
    simp [hf, hrf, hIR, hRF]

/-- C6 amended witness: at the concrete failing-restore remote, the helper
returns the error verbatim while create returns it wrapped. -/
theorem create_wraps_restore_error_witness :
    restoreFlag rdRestore = true ∧
    (isFeedRestorable rdRestore remoteRestoreFails).fst = some true ∧
    remoteRestoreFails.restoreDeletedFeed rdRestore.name rdRestore.project_id
      restoreFeedPatch = Except.error errBoom ∧
    (restoreFeed rdRestore remoteRestoreFails).fst = some errBoom ∧
    (∃ run, resourceFeedCreate rdRestore remoteRestoreFails = some run ∧
      run.outcome
        = some (AdapterError.wrapped ("restoring feed. Name: " ++ rdRestore.name)
            errBoom)) :=
  ⟨rfl, by decide, rfl,
    (create_wraps_restore_error rdRestore remoteRestoreFails errBoom rfl
      (by decide) rfl).1,
    (create_wraps_restore_error rdRestore remoteRestoreFails errBoom rfl
      (by decide) rfl).2⟩
